import Mathlib

/-!
Shallow embedding of the WebTerminal repository:
the container manager (`container-service` DockerManager) and the
terminal-session broker (`server/main.js` TerminalServer).

External effects (subprocess results, SSH events, wall-clock times) are
passed in explicitly as environment values; emitted socket events and
transport operations are reified as an `Effect` list.
-/

namespace WebTerminal

/-! ### Association-list model of a JS `Map` keyed by strings -/

def mapGet {α : Type} (m : List (String × α)) (k : String) : Option α :=
  match m with
  | [] => none
  | (k1, v1) :: rest => if k1 = k then some v1 else mapGet rest k

def mapSet {α : Type} (m : List (String × α)) (k : String) (v : α) :
    List (String × α) :=
  match m with
  | [] => [(k, v)]
  | (k1, v1) :: rest => if k1 = k then (k, v) :: rest else (k1, v1) :: mapSet rest k v

def mapDelete {α : Type} (m : List (String × α)) (k : String) :
    List (String × α) :=
  m.filter (fun p => !(p.1 = k))

theorem mapGet_mapSet_self {α : Type} (m : List (String × α)) (k : String) (v : α) :
    mapGet (mapSet m k v) k = some v := by
  induction m with
  | nil => simp [mapSet, mapGet]
  | cons hd tl ih =>
    by_cases h : hd.1 = k
    · simp [mapSet, mapGet, h]
    · simp [mapSet, mapGet, h, ih]

theorem mapGet_mapDelete_self {α : Type} (m : List (String × α)) (k : String) :
    mapGet (mapDelete m k) k = none := by
  induction m with
  | nil => simp [mapDelete, mapGet]
  | cons hd tl ih =>
    by_cases h : hd.1 = k
    · simpa [mapDelete, mapGet, h] using ih
    · simpa [mapDelete, mapGet, h] using ih

theorem mapGet_eq_of_mem {α : Type} (m : List (String × α))
    (hnd : (m.map Prod.fst).Nodup) (p : String × α) (hp : p ∈ m) :
    mapGet m p.1 = some p.2 := by
  induction m with
  | nil => cases hp
  | cons hd tl ih =>
    rcases List.mem_cons.mp hp with hp | hp
    · subst hp; simp [mapGet]
    · have hne : hd.1 ≠ p.1 := by
        intro he
        have : p.1 ∈ tl.map Prod.fst := List.mem_map_of_mem Prod.fst hp
        rw [List.map_cons] at hnd
        exact (List.nodup_cons.mp hnd).1 (he ▸ this)
      have hnd2 : (tl.map Prod.fst).Nodup := by
        rw [List.map_cons] at hnd
        exact (List.nodup_cons.mp hnd).2
      simp [mapGet, hne, ih hnd2 hp]

theorem mem_keys_mapSet {α : Type} (m : List (String × α)) (k : String) (v : α)
    (x : String) (hx : x ∈ (mapSet m k v).map Prod.fst) :
    x ∈ m.map Prod.fst ∨ x = k := by
  induction m with
  | nil => simp [mapSet] at hx; exact Or.inr hx
  | cons hd tl ih =>
    by_cases h : hd.1 = k
    · simp only [mapSet, if_pos h, List.map_cons, List.mem_cons] at hx
      rcases hx with hx | hx
      · exact Or.inr hx
      · exact Or.inl (List.mem_cons_of_mem hd.1 hx)
    · simp only [mapSet, if_neg h, List.map_cons, List.mem_cons] at hx
      rcases hx with hx | hx
      · exact Or.inl (hx ▸ List.mem_cons_self hd.1 (tl.map Prod.fst))
      · rcases ih hx with hh | hh
        · exact Or.inl (List.mem_cons_of_mem hd.1 hh)
        · exact Or.inr hh

theorem mapSet_keys_nodup {α : Type} (m : List (String × α)) (k : String) (v : α)
    (hnd : (m.map Prod.fst).Nodup) : ((mapSet m k v).map Prod.fst).Nodup := by
  induction m with
  | nil => simp [mapSet]
  | cons hd tl ih =>
    rw [List.map_cons, List.nodup_cons] at hnd
    by_cases h : hd.1 = k
    · subst h
      simpa [mapSet, List.nodup_cons] using hnd
    · simp only [mapSet, if_neg h, List.map_cons, List.nodup_cons]
      refine ⟨?_, ih hnd.2⟩
      intro hmem
      rcases mem_keys_mapSet tl k v hd.1 hmem with hh | hh
      · exact hnd.1 hh
      · exact h hh

/-! ### Executable models of the JS string primitives used by the source -/

/-- JS `String.prototype.trim()`: strip leading and trailing whitespace
(structurally recursive so that concrete instances evaluate). -/
def jsTrim (s : String) : String :=
  ⟨((s.data.dropWhile Char.isWhitespace).reverse.dropWhile Char.isWhitespace).reverse⟩

/-- JS `String.prototype.substring(0, n)` on the ASCII ids the runtime
returns: the first `n` characters. -/
def jsTake (s : String) (n : Nat) : String :=
  ⟨s.data.take n⟩

/-! ### Container manager (`DockerManager` in container-service) -/

/-- Result of a spawned `docker` subprocess: exit code plus captured streams. -/
structure ProcResult where
  exitCode : Nat
  stdout : String
  stderr : String
deriving DecidableEq

/-- The record stored in `activeContainers` by `createSSHContainer`. -/
structure ContainerInfo where
  containerId : String
  port : Nat
  host : String
  username : String
  password : String
  createdAt : Nat
  lastActivity : Nat
deriving DecidableEq

/-- DockerManager state. `buildInvocations` counts how many times the
`docker build` subprocess was spawned; `runningContainers` tracks which
containers the runtime has started and not stopped (instrumentation of the
external world, used to observe rollback behavior). -/
structure DockerState where
  activeContainers : List (String × ContainerInfo)
  buildInvocations : Nat
  runningContainers : List String
deriving DecidableEq

def DockerState.init : DockerState :=
  { activeContainers := [], buildInvocations := 0, runningContainers := [] }

/-- Source `buildSSHImage`: writes the Dockerfile and spawns `docker build`
unconditionally (there is no image-exists check); resolves on exit code 0,
rejects with the captured stderr otherwise. -/
def buildSSHImage (st : DockerState) (buildResult : ProcResult) :
    Except String Unit × DockerState :=
  let st1 := { st with buildInvocations := st.buildInvocations + 1 }
  if buildResult.exitCode = 0 then (Except.ok (), st1)
  else (Except.error ("Docker build failed: " ++ buildResult.stderr), st1)

/-- Source `runContainer`: spawns `docker run -d -p port:22`; on exit 0 with nonempty
stdout the container id (trimmed, truncated to 12 chars) is returned and the
container is now running. -/
def runContainer (st : DockerState) (runResult : ProcResult) :
    Except String String × DockerState :=
  let containerId := jsTrim runResult.stdout
  if runResult.exitCode = 0 ∧ containerId ≠ "" then
    let cid := jsTake containerId 12
    (Except.ok cid, { st with runningContainers := st.runningContainers ++ [cid] })
  else
    (Except.error ("Docker run failed: " ++ runResult.stderr), st)

/-- Source `waitForSSHReady`: polls the allocated port; `sshReady` abstracts whether a
TCP connect succeeded within the retry budget. -/
def waitForSSHReady (sshReady : Bool) : Except String Unit :=
  if sshReady then Except.ok ()
  else Except.error "SSH service did not become ready in time"

/-- External outcomes consumed by one `createSSHContainer` call. -/
structure CreateEnv where
  buildResult : ProcResult
  availablePort : Nat
  runResult : ProcResult
  sshReady : Bool
  now : Nat
deriving DecidableEq

/-- Source `createSSHContainer`: build image, find port, run container, wait for SSH,
record and return the container info; every failure is wrapped as
`Failed to create SSH container: …`. No step is undone on failure. -/
def createSSHContainer (st : DockerState) (env : CreateEnv) :
    Except String ContainerInfo × DockerState :=
  match buildSSHImage st env.buildResult with
  | (Except.error e, st1) =>
      (Except.error ("Failed to create SSH container: " ++ e), st1)
  | (Except.ok _, st1) =>
    let availablePort := env.availablePort
    match runContainer st1 env.runResult with
    | (Except.error e, st2) =>
        (Except.error ("Failed to create SSH container: " ++ e), st2)
    | (Except.ok containerId, st2) =>
      match waitForSSHReady env.sshReady with
      | Except.error e =>
          (Except.error ("Failed to create SSH container: " ++ e), st2)
      | Except.ok _ =>
        let containerInfo : ContainerInfo :=
          { containerId := containerId
            port := availablePort
            host := "localhost"
            username := "root"
            password := "password123"
            createdAt := env.now
            lastActivity := env.now }
        (Except.ok containerInfo,
         { st2 with
             activeContainers := mapSet st2.activeContainers containerId containerInfo })

/-- A sequence of `createSSHContainer` calls in one process lifetime. -/
def createCalls (st : DockerState) (envs : List CreateEnv) : DockerState :=
  match envs with
  | [] => st
  | e :: rest => createCalls (createSSHContainer st e).2 rest

/-- Source `executeDockerCommand`: resolves with trimmed stdout on exit 0, rejects
with `Docker command failed: <stderr>` otherwise. -/
def executeDockerCommand (r : ProcResult) : Except String String :=
  if r.exitCode = 0 then Except.ok (jsTrim r.stdout)
  else Except.error ("Docker command failed: " ++ r.stderr)

/-- Subprocess results consumed by one `stopContainer` call. -/
structure StopEnv where
  stopResult : ProcResult
  rmResult : ProcResult
deriving DecidableEq

/-- Source `stopContainer`: `docker stop`, then `docker rm`, then erase the record.
Any nonzero exit is rethrown to the caller; there is no special handling for a
container the runtime does not know. -/
def stopContainer (st : DockerState) (containerId : String) (env : StopEnv) :
    Except String Unit × DockerState :=
  match executeDockerCommand env.stopResult with
  | Except.error e => (Except.error e, st)
  | Except.ok _ =>
    let st1 :=
      { st with runningContainers := st.runningContainers.filter (fun c => c ≠ containerId) }
    match executeDockerCommand env.rmResult with
    | Except.error e => (Except.error e, st1)
    | Except.ok _ =>
      (Except.ok (),
       { st1 with activeContainers := mapDelete st1.activeContainers containerId })

/-- Source `updateContainerActivity`: advance `lastActivity` if the record exists. -/
def updateContainerActivity (st : DockerState) (containerId : String) (now : Nat) :
    DockerState :=
  match mapGet st.activeContainers containerId with
  | none => st
  | some c =>
      { st with
          activeContainers :=
            mapSet st.activeContainers containerId { c with lastActivity := now } }

/-! ### Terminal server (`server/main.js`) -/

/-- Credentials object received on `terminal:connect`. Absent JS fields are
`none`; `port` is a JS number (modelled as `Int`). -/
structure Credentials where
  host : Option String
  port : Option Int
  username : Option String
  password : Option String
  privateKey : Option String
  passphrase : Option String
  useKeyAuth : Bool
  containerId : Option String
deriving DecidableEq

/-- JS `!field || !field.trim()` on an optional string field: the field is
usable iff present, nonempty, and nonempty after trim. -/
def strTruthyTrim (o : Option String) : Bool :=
  match o with
  | none => false
  | some s => decide (s ≠ "") && decide (jsTrim s ≠ "")

/-- JS `!port || isNaN(port) || port < 1 || port > 65535` negated:
present, nonzero (truthy), and in [1, 65535]. -/
def portValid (o : Option Int) : Bool :=
  match o with
  | none => false
  | some p => decide (p ≠ 0) && decide (1 ≤ p) && decide (p ≤ 65535)

inductive ValidationResult where
  | valid
  | invalid (error : String)
deriving DecidableEq

/-- Source `validateCredentials`, checks in source order: presence, host, port,
username, then the branch on `useKeyAuth` (private key) or else password. -/
def validateCredentials (credentials : Option Credentials) : ValidationResult :=
  match credentials with
  | none => ValidationResult.invalid "Credentials are required"
  | some c =>
    if !(strTruthyTrim c.host) then ValidationResult.invalid "Host is required"
    else if !(portValid c.port) then
      ValidationResult.invalid "Valid port number (1-65535) is required"
    else if !(strTruthyTrim c.username) then ValidationResult.invalid "Username is required"
    else if c.useKeyAuth then
      if !(strTruthyTrim c.privateKey) then
        ValidationResult.invalid "Private key is required for key authentication"
      else ValidationResult.valid
    else
      if !(strTruthyTrim c.password) then ValidationResult.invalid "Password is required"
      else ValidationResult.valid

/-- The acceptance condition exactly as the claim under review words it:
host and username non-empty after trim, port a number in [1, 65535], and
exactly one of password or privateKey present (non-empty after trim). -/
def spec_acceptsCredentials (c : Credentials) : Bool :=
  strTruthyTrim c.host && strTruthyTrim c.username &&
  (match c.port with
   | none => false
   | some p => decide (1 ≤ p) && decide (p ≤ 65535)) &&
  (strTruthyTrim c.password != strTruthyTrim c.privateKey)

/-- One entry of `activeSessions`. -/
structure Session where
  hasConn : Bool
  hasStream : Bool
  streamWritable : Bool
  isConnecting : Bool
  isConnected : Bool
  containerId : Option String
  connectedAt : Nat
  lastActivity : Nat
deriving DecidableEq

/-- TerminalServer state: the session map plus the docker manager singleton. -/
structure ServerState where
  activeSessions : List (String × Session)
  docker : DockerState
deriving DecidableEq

/-- Observable actions the server performs on the socket, the SSH transport,
and the container runtime. -/
inductive Effect where
  | emitError (message : String)
  | emitConnected
  | emitDisconnected (reason : String)
  | emitPong
  | removeStreamListeners
  | endStream
  | removeConnListeners
  | endConn
  | containerStop (containerId : String)
  | sshAttempt
  | setWindow (rows cols height width : Int)
deriving DecidableEq

def Effect.isContainerStop : Effect → Bool
  | Effect.containerStop _ => true
  | _ => false

/-- The container-stop commands among a list of effects. -/
def containerStops (effs : List Effect) : List Effect :=
  effs.filter Effect.isContainerStop

/-- Source `handleSSHDisconnect`: if a session exists, clear its flags, remove the
stream and connection listeners, end them, and delete the session record.
It never touches the docker manager. -/
def handleSSHDisconnect (st : ServerState) (socketId : String) :
    ServerState × List Effect :=
  match mapGet st.activeSessions socketId with
  | none => (st, [])
  | some session =>
    let effs1 :=
      if session.hasStream && session.streamWritable then
        [Effect.removeStreamListeners, Effect.endStream]
      else []
    let effs2 :=
      if session.hasConn then [Effect.removeConnListeners, Effect.endConn]
      else []
    ({ st with activeSessions := mapDelete st.activeSessions socketId },
     effs1 ++ effs2)

/-- JS `credentials.containerId || null` on the raw payload. -/
def credsContainerId (credentials : Option Credentials) : Option String :=
  match credentials with
  | none => none
  | some c => c.containerId

/-- Source `handleSSHConnect` up to the point the SSH connection is attempted:
validation failure emits the validator's message and changes nothing;
otherwise any existing session is cleaned up, a fresh session is stored with
`isConnecting` set, and the SSH connection attempt starts. -/
def handleSSHConnect (st : ServerState) (socketId : String)
    (credentials : Option Credentials) (now : Nat) : ServerState × List Effect :=
  match validateCredentials credentials with
  | ValidationResult.invalid msg => (st, [Effect.emitError msg])
  | ValidationResult.valid =>
    let cleaned :=
      if (mapGet st.activeSessions socketId).isSome then
        handleSSHDisconnect st socketId
      else (st, [])
    let session : Session :=
      { hasConn := true
        hasStream := false
        streamWritable := false
        isConnecting := true
        isConnected := false
        containerId := credsContainerId credentials
        connectedAt := now
        lastActivity := now }
    ({ cleaned.1 with
         activeSessions := mapSet cleaned.1.activeSessions socketId session },
     cleaned.2 ++ [Effect.sshAttempt])

/-- Source `handleTerminalResize` payload; absent JS fields are `none`. -/
structure ResizePayload where
  cols : Option Int
  rows : Option Int
  width : Option Int
  height : Option Int
deriving DecidableEq

/-- JS truthiness of an optional number. -/
def intTruthy (o : Option Int) : Bool :=
  match o with
  | none => false
  | some n => decide (n ≠ 0)

/-- JS `x || d` on an optional number. -/
def intOr (o : Option Int) (d : Int) : Int :=
  match o with
  | none => d
  | some n => if n = 0 then d else n

/-- Source `handleTerminalResize`: forwards `setWindow(rows, cols, height||480,
width||640)` iff the session exists with a stream, the payload and both
`cols` and `rows` are truthy, and the session is connected. -/
def handleTerminalResize (st : ServerState) (socketId : String)
    (size : Option ResizePayload) : ServerState × List Effect :=
  match mapGet st.activeSessions socketId, size with
  | some session, some s =>
    if session.hasStream && intTruthy s.cols && intTruthy s.rows &&
        session.isConnected then
      (st, [Effect.setWindow (intOr s.rows 0) (intOr s.cols 0)
              (intOr s.height 480) (intOr s.width 640)])
    else (st, [])
  | _, _ => (st, [])

/-- The `ping` handler: refresh the session's `lastActivity`, touch the container
when the session carries one, and reply `pong`. -/
def handlePing (st : ServerState) (socketId : String) (now : Nat) :
    ServerState × List Effect :=
  match mapGet st.activeSessions socketId with
  | none => (st, [Effect.emitPong])
  | some session =>
    let st1 :=
      { st with
          activeSessions :=
            mapSet st.activeSessions socketId { session with lastActivity := now } }
    let st2 :=
      match session.containerId with
      | none => st1
      | some cid => { st1 with docker := updateContainerActivity st1.docker cid now }
    (st2, [Effect.emitPong])

/-- The socketIds selected by `cleanupIdleSessions`:
sessions with `now - lastActivity > maxIdleTime`. -/
def idleSessionIds (st : ServerState) (now : Nat) (maxIdleTime : Nat) : List String :=
  (st.activeSessions.filter (fun p => decide (maxIdleTime < now - p.2.lastActivity))).map
    Prod.fst

/-! ### The `terminal:connect` socket handler (rate limit and busy check) -/

/-- What happens to one `terminal:connect` event: it is rejected with a
`terminal:error` message, or it proceeds into an SSH connection attempt. -/
inductive ConnectOutcome where
  | rejected (message : String)
  | proceed
deriving DecidableEq

def rateLimitMessage : String :=
  "Too many connection attempts. Please wait before trying again."

def busyMessage : String := "Connection already in progress or established"

/-- The `terminal:connect` handler: reject if `now - lastConnectionAttempt <
2000` without touching the stamp; otherwise set the stamp to `now`, then
reject if the session is connecting or connected, then validate, then attempt
SSH. Returns the new `lastConnectionAttempt` stamp and the outcome. -/
def handleConnectEvent (lastConnectionAttempt : Nat) (now : Nat)
    (session : Option Session) (credentials : Option Credentials) :
    Nat × ConnectOutcome :=
  if now - lastConnectionAttempt < 2000 then
    (lastConnectionAttempt, ConnectOutcome.rejected rateLimitMessage)
  else
    let stamp := now
    let busy :=
      match session with
      | some s => s.isConnecting || s.isConnected
      | none => false
    if busy then (stamp, ConnectOutcome.rejected busyMessage)
    else
      match validateCredentials credentials with
      | ValidationResult.invalid msg => (stamp, ConnectOutcome.rejected msg)
      | ValidationResult.valid => (stamp, ConnectOutcome.proceed)

/-- One observed `terminal:connect` event: its arrival time, the session the
handler sees for the channel, and the credentials payload. -/
structure ConnectAttempt where
  time : Nat
  session : Option Session
  credentials : Option Credentials
deriving DecidableEq

/-- Fold a sequence of connect events through the handler, collecting the
outcome of each. -/
def runConnectAttempts (lastConnectionAttempt : Nat)
    (attempts : List ConnectAttempt) : Nat × List ConnectOutcome :=
  match attempts with
  | [] => (lastConnectionAttempt, [])
  | a :: rest =>
    let step := handleConnectEvent lastConnectionAttempt a.time a.session a.credentials
    let tail := runConnectAttempts step.1 rest
    (tail.1, step.2 :: tail.2)

/-! ### Per-session SSH connection lifecycle (timer vs. ready race) -/

/-- The flags relevant to one session's connect lifecycle: the session entry
in the map, its two state flags, whether the listeners installed on the SSH
client are still attached, and whether the 30 s connection timer is pending. -/
structure ConnLifecycle where
  sessionPresent : Bool
  isConnecting : Bool
  isConnected : Bool
  connListenersAttached : Bool
  timerActive : Bool
deriving DecidableEq

/-- The lifecycle state right after `handleSSHConnect` stores the session and
starts the 30 s timer. -/
def connectingStart : ConnLifecycle :=
  { sessionPresent := true
    isConnecting := true
    isConnected := false
    connListenersAttached := true
    timerActive := true }

/-- Events that can reach one session's lifecycle. -/
inductive ConnEvent where
  | timerFire
  | sshReady (shellOk : Bool)
  | connError (message : String)
  | connClose
deriving DecidableEq

/-- The torn-down lifecycle left by `handleSSHDisconnect`: flags cleared,
listeners removed, session record deleted. -/
def tornDown (st : ConnLifecycle) : ConnLifecycle :=
  { st with
      sessionPresent := false
      isConnecting := false
      isConnected := false
      connListenersAttached := false }

/-- One lifecycle step. The timer callback checks `isConnecting &&
!isConnected` before emitting `Connection timeout` and tearing down; the
`ready`, `error` and `close` callbacks run only while the listeners installed
by `handleSSHConnect` are still attached (teardown removes them all). -/
def connStep (st : ConnLifecycle) (ev : ConnEvent) : ConnLifecycle × List Effect :=
  match ev with
  | ConnEvent.timerFire =>
    if st.timerActive then
      let st1 := { st with timerActive := false }
      if st1.isConnecting && !st1.isConnected then
        (tornDown st1, [Effect.emitError "Connection timeout"])
      else (st1, [])
    else (st, [])
  | ConnEvent.sshReady shellOk =>
    if st.connListenersAttached then
      let st1 := { st with timerActive := false, isConnecting := false, isConnected := true }
      if shellOk then (st1, [Effect.emitConnected])
      else (tornDown st1, [Effect.emitError "Shell error"])
    else (st, [])
  | ConnEvent.connError msg =>
    if st.connListenersAttached then
      (tornDown { st with timerActive := false }, [Effect.emitError msg])
    else (st, [])
  | ConnEvent.connClose =>
    if st.connListenersAttached then
      (tornDown { st with timerActive := false },
       [Effect.emitDisconnected "connection_closed"])
    else (st, [])

/-- Run a sequence of lifecycle events, collecting emitted effects. -/
def connRun (st : ConnLifecycle) (evs : List ConnEvent) :
    ConnLifecycle × List Effect :=
  match evs with
  | [] => (st, [])
  | ev :: rest =>
    let step := connStep st ev
    let tail := connRun step.1 rest
    (tail.1, step.2 ++ tail.2)

/-! ### Shared lemmas about the container manager -/

theorem createSSHContainer_buildInvocations (st : DockerState) (env : CreateEnv) :
    (createSSHContainer st env).2.buildInvocations = st.buildInvocations + 1 := by
  by_cases hb : env.buildResult.exitCode = 0 <;>
  by_cases hr : env.runResult.exitCode = 0 ∧ jsTrim env.runResult.stdout ≠ "" <;>
  by_cases hs : env.sshReady <;>
  simp [createSSHContainer, buildSSHImage, runContainer, waitForSSHReady, hb, hr, hs]

/-! ### Concrete environments used at witnesses and counterexamples -/

/-- All subprocess steps succeed and SSH becomes ready. -/
def goodEnv : CreateEnv :=
  { buildResult := ⟨0, "", ""⟩
    availablePort := 2222
    runResult := ⟨0, "abcdef1234567890", ""⟩
    sshReady := true
    now := 1000 }

/-- Build and run succeed but the SSH listener never becomes ready. -/
def timeoutEnv : CreateEnv :=
  { buildResult := ⟨0, "", ""⟩
    availablePort := 2222
    runResult := ⟨0, "abcdef1234567890", ""⟩
    sshReady := false
    now := 5 }

/-- Both `docker stop` and `docker rm` succeed. -/
def stopOkEnv : StopEnv :=
  { stopResult := ⟨0, "", ""⟩, rmResult := ⟨0, "", ""⟩ }

/-- The runtime does not know the container: `docker stop` exits 1 with a
"No such container" diagnostic on stderr. -/
def noSuchEnv : StopEnv :=
  { stopResult := ⟨1, "", "Error response from daemon: No such container: deadbeef"⟩
    rmResult := ⟨1, "", "Error response from daemon: No such container: deadbeef"⟩ }

/-! ### Claim C1 -/

/-- Claim C1 (as stated) is false: there is no process-wide image flag, so two
`createSSHContainer` calls in one process spawn the `docker build` subprocess
twice, not at most once. -/
theorem c1_counterexample :
    (createCalls DockerState.init [goodEnv, goodEnv]).buildInvocations = 2 ∧
    ¬ (createCalls DockerState.init [goodEnv, goodEnv]).buildInvocations ≤ 1 := by
  constructor
  · rfl
  · decide

/-- Claim C1 (amended): every `createSSHContainer` call invokes the image
build command exactly once — no flag skips it — so N create calls in one
process lifetime cause exactly N build invocations. -/
theorem c1_amended (st : DockerState) (envs : List CreateEnv) :
    (createCalls st envs).buildInvocations = st.buildInvocations + envs.length := by
  induction envs generalizing st with
  | nil => simp [createCalls]
  | cons e rest ih =>
    rw [createCalls, ih, createSSHContainer_buildInvocations, List.length_cons]
    omega

/-! ### Claim C3 -/

/-- Claim C3 (as stated) is false: when the runtime reports that the container
does not exist, `stopContainer` is not a successful no-op — the nonzero exit
of `docker stop` is propagated to the caller as an error. -/
theorem c3_counterexample :
    (stopContainer DockerState.init "deadbeef" noSuchEnv).1 =
      Except.error
        "Docker command failed: Error response from daemon: No such container: deadbeef" := by
  rfl

/-- Claim C3 (amended): `stopContainer` issues runtime stop then remove and
erases the record when both commands exit 0; when `docker stop` exits nonzero
(including stop on an unknown containerId), the error is surfaced to the
caller and the record map is left unchanged — there is no already-gone
tolerance. -/
theorem c3_amended (st : DockerState) (cid : String) (env : StopEnv) :
    (env.stopResult.exitCode = 0 → env.rmResult.exitCode = 0 →
       (stopContainer st cid env).1 = Except.ok () ∧
       (stopContainer st cid env).2.activeContainers = mapDelete st.activeContainers cid ∧
       mapGet (stopContainer st cid env).2.activeContainers cid = none) ∧
    (env.stopResult.exitCode ≠ 0 →
       (stopContainer st cid env).1 =
         Except.error ("Docker command failed: " ++ env.stopResult.stderr) ∧
       (stopContainer st cid env).2.activeContainers = st.activeContainers) := by
  constructor
  · intro h1 h2
    simp [stopContainer, executeDockerCommand, h1, h2, mapGet_mapDelete_self]
  · intro h1
    simp [stopContainer, executeDockerCommand, h1]

theorem c3_amended_witness :
    (stopContainer DockerState.init "c1" stopOkEnv).1 = Except.ok () ∧
    (stopContainer DockerState.init "c1" stopOkEnv).2.activeContainers =
      mapDelete DockerState.init.activeContainers "c1" ∧
    mapGet (stopContainer DockerState.init "c1" stopOkEnv).2.activeContainers "c1" =
      none :=
  (c3_amended DockerState.init "c1" stopOkEnv).1 rfl rfl

/-! ### Claim C4 -/

/-- Claim C4 (as stated) is false: when the await-listener step times out
after the container was started, create fails with the `ContainerCreate`
wrap and records nothing, but no rollback stop is attempted — the started
container is still running afterward. -/
theorem c4_counterexample :
    (createSSHContainer DockerState.init timeoutEnv).1 =
      Except.error
        "Failed to create SSH container: SSH service did not become ready in time" ∧
    (createSSHContainer DockerState.init timeoutEnv).2.activeContainers = [] ∧
    (createSSHContainer DockerState.init timeoutEnv).2.runningContainers =
      ["abcdef123456"] := by
  refine ⟨rfl, rfl, rfl⟩

/-- Claim C4 (amended): a create that starts the container but times out
waiting for the SSH listener fails with the `Failed to create SSH container:`
error and records no container, but the started container is not stopped — it
remains running with no record pointing at it. -/
theorem c4_amended (st : DockerState) (env : CreateEnv)
    (hb : env.buildResult.exitCode = 0)
    (hr : env.runResult.exitCode = 0) (hc : jsTrim env.runResult.stdout ≠ "")
    (hs : env.sshReady = false) :
    (createSSHContainer st env).1 =
      Except.error
        "Failed to create SSH container: SSH service did not become ready in time" ∧
    (createSSHContainer st env).2.activeContainers = st.activeContainers ∧
    jsTake (jsTrim env.runResult.stdout) 12 ∈
      (createSSHContainer st env).2.runningContainers := by
  simp [createSSHContainer, buildSSHImage, runContainer, waitForSSHReady, hb, hr, hc, hs]

theorem c4_amended_witness :
    (createSSHContainer DockerState.init timeoutEnv).1 =
      Except.error
        "Failed to create SSH container: SSH service did not become ready in time" ∧
    (createSSHContainer DockerState.init timeoutEnv).2.activeContainers =
      DockerState.init.activeContainers ∧
    jsTake (jsTrim timeoutEnv.runResult.stdout) 12 ∈
      (createSSHContainer DockerState.init timeoutEnv).2.runningContainers :=
  c4_amended DockerState.init timeoutEnv rfl rfl (by decide) rfl

/-! ### Concrete server states used at witnesses and counterexamples -/

def sampleContainer : ContainerInfo :=
  { containerId := "cont1"
    port := 2222
    host := "localhost"
    username := "root"
    password := "password123"
    createdAt := 0
    lastActivity := 0 }

/-- A session in the Connected state attached to container `cont1`. -/
def connectedSession : Session :=
  { hasConn := true
    hasStream := true
    streamWritable := true
    isConnecting := false
    isConnected := true
    containerId := some "cont1"
    connectedAt := 0
    lastActivity := 0 }

def sampleServerState : ServerState :=
  { activeSessions := [("sock1", connectedSession)]
    docker :=
      { activeContainers := [("cont1", sampleContainer)]
        buildInvocations := 1
        runningContainers := ["cont1"] } }

/-! ### Claim C2 -/

/-- Claim C2 (as stated) is false: handling `terminal:disconnect` on a
Connected session deletes the session record from the session map — the
session does not return to Idle, and afterward there is no session whose
`containerId` field could be read. -/
theorem c2_counterexample :
    mapGet sampleServerState.activeSessions "sock1" = some connectedSession ∧
    connectedSession.isConnected = true ∧
    mapGet (handleSSHDisconnect sampleServerState "sock1").1.activeSessions "sock1" =
      none := by
  refine ⟨rfl, rfl, rfl⟩

/-- Claim C2 (amended): handling `terminal:disconnect` on an existing session
tears down the SSH transport (listeners removed, connection ended), issues no
container stop and leaves the container manager's state unchanged, but it
deletes the session record from the session map rather than returning the
session to Idle; reconnection relies on the client re-sending the cached
container credentials to a fresh `connect`. -/
theorem c2_amended (st : ServerState) (sock : String) (session : Session)
    (hs : mapGet st.activeSessions sock = some session)
    (hconn : session.hasConn = true) :
    (handleSSHDisconnect st sock).1.docker = st.docker ∧
    containerStops (handleSSHDisconnect st sock).2 = [] ∧
    Effect.removeConnListeners ∈ (handleSSHDisconnect st sock).2 ∧
    Effect.endConn ∈ (handleSSHDisconnect st sock).2 ∧
    mapGet (handleSSHDisconnect st sock).1.activeSessions sock = none := by
  by_cases h2 : (session.hasStream && session.streamWritable) = true <;>
    simp [handleSSHDisconnect, hs, hconn, h2, containerStops, Effect.isContainerStop,
      mapGet_mapDelete_self]

theorem c2_amended_witness :
    (handleSSHDisconnect sampleServerState "sock1").1.docker =
      sampleServerState.docker ∧
    containerStops (handleSSHDisconnect sampleServerState "sock1").2 = [] ∧
    Effect.removeConnListeners ∈ (handleSSHDisconnect sampleServerState "sock1").2 ∧
    Effect.endConn ∈ (handleSSHDisconnect sampleServerState "sock1").2 ∧
    mapGet (handleSSHDisconnect sampleServerState "sock1").1.activeSessions "sock1" =
      none :=
  c2_amended sampleServerState "sock1" connectedSession rfl rfl

/-! ### Claim C7 -/

/-- Credentials carrying BOTH a password and a private key (with
`useKeyAuth` false). -/
def bothAuthCreds : Credentials :=
  { host := some "h"
    port := some 22
    username := some "u"
    password := some "p"
    privateKey := some "k"
    passphrase := none
    useKeyAuth := false
    containerId := none }

/-- Claim C7 (as stated) is false: the validator accepts credentials in which
both `password` and `privateKey` are present (non-empty after trim), while the
claimed acceptance condition (exactly one of the two present) rejects them. -/
theorem c7_counterexample :
    validateCredentials (some bothAuthCreds) = ValidationResult.valid ∧
    spec_acceptsCredentials bothAuthCreds = false := by
  refine ⟨rfl, rfl⟩

/-- Claim C7 (amended): validation accepts iff host and username are
non-empty after trim, port is a truthy number in [1, 65535], and the
credential selected by the `useKeyAuth` flag is non-empty after trim —
`privateKey` when `useKeyAuth` is set (password ignored), `password`
otherwise (privateKey ignored); on any violation the connect boundary emits a
`terminal:error` naming the first failing field and creates no session. -/
theorem c7_amended :
    (∀ c : Credentials,
      validateCredentials (some c) = ValidationResult.valid ↔
        (strTruthyTrim c.host = true ∧ portValid c.port = true ∧
         strTruthyTrim c.username = true ∧
         (c.useKeyAuth = true → strTruthyTrim c.privateKey = true) ∧
         (c.useKeyAuth = false → strTruthyTrim c.password = true))) ∧
    (∀ (st : ServerState) (sock : String) (creds : Option Credentials)
        (now : Nat) (msg : String),
      validateCredentials creds = ValidationResult.invalid msg →
        handleSSHConnect st sock creds now = (st, [Effect.emitError msg])) := by
  constructor
  · intro c
    unfold validateCredentials
    by_cases h1 : strTruthyTrim c.host <;> by_cases h2 : portValid c.port <;>
      by_cases h3 : strTruthyTrim c.username <;> by_cases h4 : c.useKeyAuth <;>
      by_cases h5 : strTruthyTrim c.privateKey <;>
      by_cases h6 : strTruthyTrim c.password <;>
      simp [h1, h2, h3, h4, h5, h6]
  · intro st sock creds now msg h
    simp [handleSSHConnect, h]

theorem c7_amended_witness :
    handleSSHConnect sampleServerState "sockW" none 0 =
      (sampleServerState, [Effect.emitError "Credentials are required"]) :=
  c7_amended.2 sampleServerState "sockW" none 0 "Credentials are required" rfl

/-! ### Claim C8 -/

/-- A resize payload with a negative column count. -/
def negResize : ResizePayload :=
  { cols := some (-5), rows := some 10, width := none, height := none }

/-- Claim C8 (as stated) is false: the handler tests JS truthiness, not
positivity, so a resize with `cols = -5` on a Connected session with a stream
reaches the shell as a `setWindow` call instead of being ignored. -/
theorem c8_counterexample :
    (handleTerminalResize sampleServerState "sock1" (some negResize)).2 =
      [Effect.setWindow 10 (-5) 480 640] := by
  rfl

/-- Claim C8 (amended): the shell resize is invoked iff the session exists
with a stream and is Connected and both `cols` and `rows` are truthy
(present and nonzero) — negative dimensions pass the check and are forwarded;
zero or missing dimensions, a missing payload, a missing stream or a
non-Connected session are ignored. -/
theorem c8_amended (st : ServerState) (sock : String) (s : ResizePayload) :
    ((handleTerminalResize st sock (some s)).2 ≠ [] ↔
      (∃ session, mapGet st.activeSessions sock = some session ∧
        session.hasStream = true ∧ session.isConnected = true) ∧
      intTruthy s.cols = true ∧ intTruthy s.rows = true) ∧
    (handleTerminalResize st sock none).2 = [] := by
  constructor
  · cases hms : mapGet st.activeSessions sock with
    | none => simp [handleTerminalResize, hms]
    | some session =>
      by_cases h : (session.hasStream && intTruthy s.cols && intTruthy s.rows &&
          session.isConnected) = true
      · have h4 := h
        simp only [Bool.and_eq_true] at h4
        obtain ⟨⟨⟨hs1, hc1⟩, hr1⟩, hcon⟩ := h4
        simp [handleTerminalResize, hms, h, hs1, hc1, hr1, hcon]
      · have heff : (handleTerminalResize st sock (some s)).2 = [] := by
          simp [handleTerminalResize, hms, h]
        rw [heff]
        constructor
        · intro hfalse; exact absurd rfl hfalse
        · rintro ⟨⟨session1, hinj, hs1, hcon⟩, hc1, hr1⟩
          cases Option.some.inj hinj
          exact absurd
            (show (session.hasStream && intTruthy s.cols && intTruthy s.rows &&
                session.isConnected) = true by simp [hs1, hc1, hr1, hcon]) h
  · simp [handleTerminalResize]

/-! ### Claim C9 -/

/-- Claim C9: a `ping` from a client with an active session sets the
session's `lastActivity` to now, advances the attached container's
`lastActivity`, and therefore any idle-session sweep running within the
30-minute budget of that ping does not select the session. -/
theorem c9_ping_keeps_session_alive (st : ServerState) (sock : String)
    (session : Session) (cid : String) (c : ContainerInfo) (now sweepTime : Nat)
    (hs : mapGet st.activeSessions sock = some session)
    (hnd : (st.activeSessions.map Prod.fst).Nodup)
    (hcid : session.containerId = some cid)
    (hc : mapGet st.docker.activeContainers cid = some c)
    (hsweep : sweepTime - now ≤ 1800000) :
    mapGet (handlePing st sock now).1.activeSessions sock =
      some { session with lastActivity := now } ∧
    mapGet (handlePing st sock now).1.docker.activeContainers cid =
      some { c with lastActivity := now } ∧
    sock ∉ idleSessionIds (handlePing st sock now).1 sweepTime 1800000 := by
  have hsess : (handlePing st sock now).1.activeSessions =
      mapSet st.activeSessions sock { session with lastActivity := now } := by
    simp [handlePing, hs, hcid]
  have hdock : (handlePing st sock now).1.docker.activeContainers =
      mapSet st.docker.activeContainers cid { c with lastActivity := now } := by
    simp [handlePing, hs, hcid, updateContainerActivity, hc]
  refine ⟨?_, ?_, ?_⟩
  · rw [hsess]; exact mapGet_mapSet_self _ _ _
  · rw [hdock]; exact mapGet_mapSet_self _ _ _
  · intro hmem
    rw [idleSessionIds] at hmem
    obtain ⟨p, hpf, hpfst⟩ := List.mem_map.mp hmem
    obtain ⟨hpmem, hpred⟩ := List.mem_filter.mp hpf
    have hnd1 : ((handlePing st sock now).1.activeSessions.map Prod.fst).Nodup := by
      rw [hsess]; exact mapSet_keys_nodup _ _ _ hnd
    have hp2 := mapGet_eq_of_mem _ hnd1 p hpmem
    rw [hpfst, hsess, mapGet_mapSet_self] at hp2
    have hla : p.2.lastActivity = now := by
      have := Option.some.inj hp2
      rw [← this]
    rw [hla] at hpred
    have : (1800000 : Nat) < sweepTime - now := of_decide_eq_true hpred
    omega

theorem c9_witness :
    mapGet (handlePing sampleServerState "sock1" 100).1.activeSessions "sock1" =
      some { connectedSession with lastActivity := 100 } ∧
    mapGet (handlePing sampleServerState "sock1" 100).1.docker.activeContainers
        "cont1" = some { sampleContainer with lastActivity := 100 } ∧
    "sock1" ∉ idleSessionIds (handlePing sampleServerState "sock1" 100).1
      1800100 1800000 :=
  c9_ping_keeps_session_alive sampleServerState "sock1" connectedSession "cont1"
    sampleContainer 100 1800100 rfl (by decide) rfl rfl (by decide)

/-! ### Shared lemmas about the connect handler and lifecycle -/

/-- The validator never produces the rate-limit message. -/
theorem validateCredentials_ne_rate (creds : Option Credentials) :
    validateCredentials creds ≠ ValidationResult.invalid rateLimitMessage := by
  cases creds with
  | none =>
    intro h
    exact absurd (ValidationResult.invalid.inj h) (by decide)
  | some c =>
    unfold validateCredentials
    by_cases h1 : strTruthyTrim c.host <;> by_cases h2 : portValid c.port <;>
      by_cases h3 : strTruthyTrim c.username <;> by_cases h4 : c.useKeyAuth <;>
      by_cases h5 : strTruthyTrim c.privateKey <;>
      by_cases h6 : strTruthyTrim c.password <;>
      simp [h1, h2, h3, h4, h5, h6, rateLimitMessage]

/-- Once the listeners are detached and the session is not connected, no
lifecycle event reattaches them, connects the session, or emits
`terminal:connected`. -/
theorem connStep_dead (st : ConnLifecycle) (ev : ConnEvent)
    (hl : st.connListenersAttached = false) (hc : st.isConnected = false) :
    (connStep st ev).1.connListenersAttached = false ∧
    (connStep st ev).1.isConnected = false ∧
    Effect.emitConnected ∉ (connStep st ev).2 := by
  cases ev with
  | timerFire =>
    by_cases h1 : st.timerActive = true <;>
      by_cases h2 : st.isConnecting = true <;>
      simp [connStep, tornDown, hl, hc, h1, h2]
  | sshReady shellOk => simp [connStep, hl, hc]
  | connError msg => simp [connStep, hl, hc]
  | connClose => simp [connStep, hl, hc]

theorem connRun_dead (st : ConnLifecycle) (evs : List ConnEvent)
    (hl : st.connListenersAttached = false) (hc : st.isConnected = false) :
    (connRun st evs).1.isConnected = false ∧
    Effect.emitConnected ∉ (connRun st evs).2 := by
  induction evs generalizing st with
  | nil => simpa [connRun] using hc
  | cons ev rest ih =>
    obtain ⟨h1, h2, h3⟩ := connStep_dead st ev hl hc
    obtain ⟨h4, h5⟩ := ih (connStep st ev).1 h1 h2
    simp [connRun, List.mem_append, h3, h4, h5]

/-! ### Claim C5 -/

/-- Claim C5: if the 30 s connection timer fires while the session is still
Connecting, the client receives the `Connection timeout` error and the
session is torn down (record deleted, transport listeners removed), and no
sequence of later transport events — a late SSH ready included — can emit
`terminal:connected` or bring the session to Connected. -/
theorem c5_timer_kills_late_ready (st : ConnLifecycle) (evs : List ConnEvent)
    (hconn : st.isConnecting = true) (hnc : st.isConnected = false)
    (ht : st.timerActive = true) :
    Effect.emitError "Connection timeout" ∈ (connStep st ConnEvent.timerFire).2 ∧
    (connStep st ConnEvent.timerFire).1.sessionPresent = false ∧
    (connStep st ConnEvent.timerFire).1.connListenersAttached = false ∧
    Effect.emitConnected ∉ (connRun (connStep st ConnEvent.timerFire).1 evs).2 ∧
    (connRun (connStep st ConnEvent.timerFire).1 evs).1.isConnected = false := by
  have hstep : connStep st ConnEvent.timerFire =
      (tornDown { st with timerActive := false },
       [Effect.emitError "Connection timeout"]) := by
    simp [connStep, ht, hconn, hnc]
  rw [hstep]
  have hdead := connRun_dead (tornDown { st with timerActive := false }) evs
    (by simp [tornDown]) (by simp [tornDown])
  exact ⟨by simp, by simp [tornDown], by simp [tornDown], hdead.2, hdead.1⟩

theorem c5_witness :
    Effect.emitError "Connection timeout" ∈
      (connStep connectingStart ConnEvent.timerFire).2 ∧
    (connStep connectingStart ConnEvent.timerFire).1.sessionPresent = false ∧
    (connStep connectingStart ConnEvent.timerFire).1.connListenersAttached = false ∧
    Effect.emitConnected ∉
      (connRun (connStep connectingStart ConnEvent.timerFire).1
        [ConnEvent.sshReady true]).2 ∧
    (connRun (connStep connectingStart ConnEvent.timerFire).1
      [ConnEvent.sshReady true]).1.isConnected = false :=
  c5_timer_kills_late_ready connectingStart [ConnEvent.sshReady true] rfl rfl rfl

/-! ### Claim C6 -/

/-- Valid password credentials for a local container. -/
def validCreds : Credentials :=
  { host := some "localhost"
    port := some 2222
    username := some "root"
    password := some "password123"
    privateKey := none
    passphrase := none
    useKeyAuth := false
    containerId := none }

/-- Three connect events: the first passes the rate check but fails
validation (leaving no session), the second is rate-limited, the third
arrives 1900 ms after the second. -/
def c6Trace : List ConnectAttempt :=
  [{ time := 10000, session := none, credentials := none },
   { time := 11900, session := none, credentials := none },
   { time := 13800, session := none, credentials := some validCreds }]

/-- Claim C6 (as stated) is false: the third connect event arrives less than
2 seconds after the second, yet it passes the rate check and starts an SSH
attempt, because the rate window is measured from the last attempt that
passed the check (time 10000) — the rate-limited second attempt did not
advance the stamp. -/
theorem c6_counterexample :
    (runConnectAttempts 0 c6Trace).2 =
      [ConnectOutcome.rejected "Credentials are required",
       ConnectOutcome.rejected rateLimitMessage,
       ConnectOutcome.proceed] ∧
    13800 - 11900 < 2000 := by
  refine ⟨rfl, by decide⟩

/-- Claim C6 (amended): a `terminal:connect` is rejected with exactly
`Too many connection attempts. Please wait before trying again.` iff it
arrives less than 2 seconds after the most recent attempt that passed the
rate check (the stored stamp) — not the most recent attempt outright; a
rate-limited event starts no SSH attempt and leaves the stamp unchanged, and
any attempt arriving 2 seconds or more after the stamp passes the rate check
and advances the stamp to its own time. -/
theorem c6_amended (last now : Nat) (session : Option Session)
    (credentials : Option Credentials) :
    ((handleConnectEvent last now session credentials).2 =
        ConnectOutcome.rejected rateLimitMessage ↔ now - last < 2000) ∧
    (now - last < 2000 →
      handleConnectEvent last now session credentials =
        (last, ConnectOutcome.rejected rateLimitMessage)) ∧
    (2000 ≤ now - last →
      (handleConnectEvent last now session credentials).1 = now) := by
  by_cases h : now - last < 2000
  · refine ⟨?_, fun _ => by simp [handleConnectEvent, h], fun hge => absurd h (by omega)⟩
    simp [handleConnectEvent, h]
  · refine ⟨?_, fun hlt => absurd hlt h, fun _ => ?_⟩
    · simp only [handleConnectEvent, if_neg h]
      constructor
      · intro hout
        exfalso
        revert hout
        cases session with
        | none =>
          simp only []
          cases hv : validateCredentials credentials with
          | valid => simp
          | invalid msg =>
            simp only []
            intro hout
            have := ConnectOutcome.rejected.inj hout
            exact validateCredentials_ne_rate credentials (this ▸ hv)
        | some s =>
          by_cases hb : (s.isConnecting || s.isConnected) = true
          · simp only [hb, if_true]
            intro hout
            have := ConnectOutcome.rejected.inj hout
            exact absurd this (by decide)
          · simp only [Bool.not_eq_true] at hb
            simp only [hb, Bool.false_or]
            cases hv : validateCredentials credentials with
            | valid => simp
            | invalid msg =>
              simp only []
              intro hout
              have := ConnectOutcome.rejected.inj hout
              exact validateCredentials_ne_rate credentials (this ▸ hv)
      · intro hlt; exact absurd hlt h
    · simp only [handleConnectEvent, if_neg h]
      cases session with
      | none => cases validateCredentials credentials <;> rfl
      | some s =>
        by_cases hb : (s.isConnecting || s.isConnected) = true
        · simp [hb]
        · simp only [Bool.not_eq_true] at hb
          simp only [hb]
          cases validateCredentials credentials <;> rfl

theorem c6_amended_witness :
    handleConnectEvent 10000 11900 none none =
      (10000, ConnectOutcome.rejected rateLimitMessage) :=
  (c6_amended 10000 11900 none none).2.1 (by decide)

/-! ### Claim C10 -/

/-- Claim C10: the rate-limit stamp after a `terminal:connect` event equals
the event's arrival time whenever the event passed the 2-second rate check —
including events subsequently rejected as Busy or by credential validation —
and is left unchanged when the rate check itself rejected the event; the
2-second window is therefore measured from the most recent attempt that
passed the rate check. -/
theorem c10_rate_stamp (last now : Nat) (session : Option Session)
    (credentials : Option Credentials) :
    (handleConnectEvent last now session credentials).1 =
      if now - last < 2000 then last else now := by
  by_cases h : now - last < 2000
  · simp [handleConnectEvent, h]
  · simp only [handleConnectEvent, if_neg h]
    cases session with
    | none => cases validateCredentials credentials <;> rfl
    | some s =>
      by_cases hb : (s.isConnecting || s.isConnected) = true
      · simp [hb]
      · simp only [Bool.not_eq_true] at hb
        simp only [hb]
        cases validateCredentials credentials <;> rfl

end WebTerminal
